import Mathlib

/-!
Verification of the `fsio` path-utility module (`src/path/mod.rs`).

The Rust functions under verification delegate path structure to the
platform's (Unix) path semantics: `Path::components`, `Path::file_name`,
`Path::parent`, `Path::canonicalize`.  We embed those semantics over plain
UTF-8 strings: a path is its display string, raw pieces are the substrings
between `/` separators, and components follow the documented normalization
rules (empty pieces and interior `.` pieces are skipped; a leading `.` of a
relative path is kept as the current-directory component; a leading `/`
yields the root component).

Filesystem-dependent behaviour (`canonicalize`) is embedded as an explicit
oracle argument `fs : String → Except ε String` standing for the OS call,
so the library functions stay pure and executable.
-/

namespace Fsio

/-- Splits a character list on the `/` separator, keeping empty pieces. -/
def splitSlashAux : List Char → List Char → List String
  | [], acc => [String.mk acc.reverse]
  | c :: rest, acc =>
      if c = '/' then String.mk acc.reverse :: splitSlashAux rest []
      else splitSlashAux rest (c :: acc)

/-- The raw pieces of a path string: substrings between `/` separators. -/
def rawPieces (s : String) : List String := splitSlashAux s.data []

/-- Whether the path has a root, i.e. starts with `/` (Unix `has_root`). -/
def isAbs (s : String) : Bool :=
  match s.data with
  | '/' :: _ => true
  | _ => false

/-- Whether the path starts with a literal current-directory component:
it is exactly `.` or starts with `./` (Rust `Components::include_cur_dir`;
only possible for relative paths). -/
def includeCurDir (s : String) : Bool :=
  match s.data with
  | ['.'] => true
  | '.' :: '/' :: _ => true
  | _ => false

/-- Whether raw piece `p` at index `i` survives component normalization:
empty pieces are separator artifacts, and `.` pieces are dropped unless the
path literally starts with `.` (then index 0 is the current-dir component). -/
def isRealPiece (incCur : Bool) (i : Nat) (p : String) : Bool :=
  p != "" && (p != "." || (incCur && i == 0))

/-- Indices of the raw pieces that become components. -/
def realIdxs (incCur : Bool) (ps : List String) : List Nat :=
  (List.range ps.length).filter (fun i => isRealPiece incCur i (ps.getD i ""))

/-- A Unix path component (no Windows prefixes), as in Rust `std::path`. -/
inductive Component where
  | rootDir : Component
  | curDir : Component
  | parentDir : Component
  | normal : String → Component
  deriving DecidableEq, Repr

/-- Classifies a surviving raw piece as a component. -/
def pieceToComponent (p : String) : Component :=
  if p = "." then Component.curDir
  else if p = ".." then Component.parentDir
  else Component.normal p

/-- The normalized component list of a path string (Rust `Path::components`
on Unix): an optional root followed by the surviving pieces. -/
def components (s : String) : List Component :=
  (if isAbs s then [Component.rootDir] else []) ++
    (realIdxs (includeCurDir s) (rawPieces s)).map
      (fun i => pieceToComponent ((rawPieces s).getD i ""))

/-- Rust `Path::file_name`: the final component when it is a normal one. -/
def fileName (s : String) : Option String :=
  match (components s).getLast? with
  | some (Component.normal n) => some n
  | _ => none

/-- Renders raw pieces back to the path text they came from (the separator
is the single character `/`, so this is the original substring). -/
def renderPieces : List String → String
  | [] => ""
  | [p] => p
  | p :: q :: rest => p ++ "/" ++ renderPieces (q :: rest)

/-- Rust `Path::parent`: drops the final component, returning the slice of
the original text up to the previous component, right-trimmed of separators
and skipped `.` pieces; `none` when there is no component or only the root.
A lone remaining root renders as `/`; no remaining component renders as the
empty string. -/
def parentString (s : String) : Option String :=
  match (components s).getLast? with
  | none => none
  | some Component.rootDir => none
  | some _ =>
      match ((realIdxs (includeCurDir s) (rawPieces s)).dropLast).getLast? with
      | some i => some (renderPieces ((rawPieces s).take (i + 1)))
      | none => if isAbs s then some "/" else some ""

/-- Modelled from the spec: `as_path.rs` is not under `src/`.  The spec's
AsPath capability converts a text value to the native path view losslessly
for text encodable in the native path encoding; on Unix with UTF-8 strings
this is the identity on the display text. -/
def as_path (s : String) : String := s

/-- Modelled from the spec: `from_path.rs` is not under `src/`.  The spec's
FromPath capability produces the display string of a native path; on Unix
with UTF-8 strings this is the identity. -/
def from_path (p : String) : String := p

/-- Modelled from the spec: `error.rs` is not under `src/`.  The error
payload is a tagged union: an I/O failure wrapping a message and an
optional underlying OS error, or a logical failure with no OS error.
`ε` abstracts the OS error type. -/
inductive ErrorInfo (ε : Type) where
  | IOError : String → Option ε → ErrorInfo ε
  | LogicalError : String → ErrorInfo ε
  deriving DecidableEq

/-- Modelled from the spec: the library error wrapper carrying the info. -/
structure FsIOError (ε : Type) where
  info : ErrorInfo ε
  deriving DecidableEq

/-- Embedding of `canonicalize_as_string` (src/path/mod.rs:44-56): runs the
OS canonicalization oracle `fs` on the path view and either converts the
resulting path buffer to a display string or wraps the OS error. -/
def canonicalize_as_string {ε : Type} (fs : String → Except ε String)
    (path : String) : Except (FsIOError ε) String :=
  match fs (as_path path) with
  | Except.ok path_buf => Except.ok (from_path path_buf)
  | Except.error error =>
      Except.error ⟨ErrorInfo.IOError "Unable to canonicalize path." (some error)⟩

/-- Embedding of `canonicalize_or` (src/path/mod.rs:82-87). -/
def canonicalize_or {ε : Type} (fs : String → Except ε String)
    (path : String) (or_value : String) : String :=
  match canonicalize_as_string fs path with
  | Except.ok value => value
  | Except.error _ => or_value

/-- Embedding of `get_basename` (src/path/mod.rs:110-117): `file_name` of
the path view, converted by `to_string_lossy` (identity on UTF-8). -/
def get_basename (path : String) : Option String :=
  match fileName (as_path path) with
  | some name => some name
  | none => none

/-- Embedding of `get_parent_directory` (src/path/mod.rs:140-156):
`parent` of the path view rendered through FromPath, with an empty
resulting string normalized to `none`. -/
def get_parent_directory (path : String) : Option String :=
  match parentString (as_path path) with
  | some directory_path_string =>
      if directory_path_string = "" then none else some directory_path_string
  | none => none

/-- Modelled from the spec: `temp_path.rs` (feature `temp-path`) is not
under `src/`.  The spec's `get_temporary_file_path` joins the platform
temp directory, a platform-generated unique base name, and the extension
after a dot; the directory and generated name are oracle inputs. -/
def get_temporary_file_path (temp_dir : String) (unique_name : String)
    (extension : String) : String :=
  temp_dir ++ "/" ++ unique_name ++ "." ++ extension

/-- A list element reached by `getLast?` is a member of the list. -/
theorem mem_of_getLast?_eq {α : Type} {l : List α} {a : α}
    (h : l.getLast? = some a) : a ∈ l := by
  have h2 := List.dropLast_append_getLast? a h
  rw [← h2]
  exact List.mem_append_right _ (List.mem_singleton_self _)

/-- Normal components arise only from surviving raw pieces, which are
never empty. -/
theorem normal_mem_components_ne_empty {s n : String}
    (h : Component.normal n ∈ components s) : n ≠ "" := by
  unfold components at h
  rcases List.mem_append.mp h with h1 | h2
  · revert h1
    split <;> simp
  · obtain ⟨i, hi, hpc⟩ := List.mem_map.mp h2
    have hreal : isRealPiece (includeCurDir s) i ((rawPieces s).getD i "") = true :=
      (List.mem_filter.mp hi).2
    have hne : (rawPieces s).getD i "" ≠ "" := by
      intro hc
      rw [hc] at hreal
      simp [isRealPiece] at hreal
    unfold pieceToComponent at hpc
    by_cases hp1 : (rawPieces s).getD i "" = "."
    · rw [if_pos hp1] at hpc
      exact absurd hpc (by simp)
    · rw [if_neg hp1] at hpc
      by_cases hp2 : (rawPieces s).getD i "" = ".."
      · rw [if_pos hp2] at hpc
        exact absurd hpc (by simp)
      · rw [if_neg hp2] at hpc
        have heq : (rawPieces s).getD i "" = n := Component.normal.inj hpc
        exact heq ▸ hne

/-- A successful `get_basename` exposes the final component as normal. -/
theorem basename_last_component {s b : String} (h : get_basename s = some b) :
    (components s).getLast? = some (Component.normal b) := by
  unfold get_basename fileName as_path at h
  rcases hl : (components s).getLast? with _ | c
  · rw [hl] at h
    simp at h
  · rw [hl] at h
    cases c <;> simp_all

/-- C1: `get_parent_directory` never returns an empty-string value; when
the structurally computed parent is the empty string (e.g. the
single-segment path `mod.rs`) it returns `none` instead of `some ""`. -/
theorem c1_get_parent_directory_never_empty :
    (∀ s d : String, get_parent_directory s = some d → d ≠ "") ∧
    get_parent_directory "mod.rs" = none ∧
    (∀ s : String, parentString s = some "" → get_parent_directory s = none) := by
  refine ⟨?_, by decide, ?_⟩
  · intro s d h hd
    subst hd
    unfold get_parent_directory as_path at h
    rcases hp : parentString s with _ | v
    · rw [hp] at h
      simp at h
    · rw [hp] at h
      change (if v = "" then (none : Option String) else some v) = some "" at h
      split at h
      · exact Option.noConfusion h
      · rename_i hv
        exact hv (Option.some.inj h)
  · intro s h
    unfold get_parent_directory as_path
    rw [h]
    simp

/-- C1 witness: the first and third conjuncts applied at `"./a"` (whose
parent is `"."`) and at `"mod.rs"` (whose structural parent is empty). -/
theorem c1_witness : ("." : String) ≠ "" ∧ get_parent_directory "mod.rs" = none :=
  ⟨c1_get_parent_directory_never_empty.1 "./a" "." (by decide),
   c1_get_parent_directory_never_empty.2.2 "mod.rs" (by decide)⟩

/-- C2: when `canonicalize_as_string` succeeds, `canonicalize_or` returns
exactly that successful value, ignoring the fallback. -/
theorem c2_canonicalize_or_of_ok (ε : Type) (fs : String → Except ε String)
    (path fallback value : String)
    (h : canonicalize_as_string fs path = Except.ok value) :
    canonicalize_or fs path fallback = value := by
  unfold canonicalize_or
  rw [h]

/-- C2 witness: a concrete always-succeeding canonicalization oracle. -/
theorem c2_witness :
    canonicalize_or (fun _ => (Except.ok "/resolved" : Except Unit String))
      "p" "fallback" = "/resolved" :=
  c2_canonicalize_or_of_ok Unit (fun _ => Except.ok "/resolved")
    "p" "fallback" "/resolved" rfl

/-- C3: when `canonicalize_as_string` fails, `canonicalize_or` returns the
fallback verbatim and never propagates the error. -/
theorem c3_canonicalize_or_of_error (ε : Type) (fs : String → Except ε String)
    (path fallback : String) (err : FsIOError ε)
    (h : canonicalize_as_string fs path = Except.error err) :
    canonicalize_or fs path fallback = fallback := by
  unfold canonicalize_or
  rw [h]

/-- C3 witness: a concrete always-failing canonicalization oracle. -/
theorem c3_witness :
    canonicalize_or (fun _ => (Except.error () : Except Unit String))
      "p" "fallback" = "fallback" :=
  c3_canonicalize_or_of_error Unit (fun _ => Except.error ()) "p" "fallback"
    ⟨ErrorInfo.IOError "Unable to canonicalize path." (some ())⟩ rfl

/-- C4: `canonicalize_as_string` wraps the underlying OS error in an
I/O-failure error value when resolution fails, and returns the resolved
path rendered through FromPath when resolution succeeds. -/
theorem c4_canonicalize_as_string_spec (ε : Type)
    (fs : String → Except ε String) (path : String) :
    (∀ e : ε, fs path = Except.error e →
      canonicalize_as_string fs path =
        Except.error ⟨ErrorInfo.IOError "Unable to canonicalize path." (some e)⟩) ∧
    (∀ p : String, fs path = Except.ok p →
      canonicalize_as_string fs path = Except.ok (from_path p)) := by
  constructor
  · intro e h
    unfold canonicalize_as_string as_path
    rw [h]
  · intro p h
    unfold canonicalize_as_string as_path
    rw [h]

/-- C4 witness: both branches at concrete oracles. -/
theorem c4_witness :
    canonicalize_as_string (fun _ => (Except.error 7 : Except Nat String)) "missing" =
      Except.error ⟨ErrorInfo.IOError "Unable to canonicalize path." (some 7)⟩ ∧
    canonicalize_as_string (fun _ => (Except.ok "/abs" : Except Nat String)) "there" =
      Except.ok (from_path "/abs") :=
  ⟨(c4_canonicalize_as_string_spec Nat (fun _ => Except.error 7) "missing").1 7 rfl,
   (c4_canonicalize_as_string_spec Nat (fun _ => Except.ok "/abs") "there").2 "/abs" rfl⟩

/-- C5: `get_basename` yields the documented examples, and whenever it
returns a value that value is the final normal component of the path. -/
theorem c5_get_basename_spec :
    get_basename "./src/path/mod.rs" = some "mod.rs" ∧
    get_basename "/" = none ∧
    (∀ s : String, get_basename s = none ∨
      ∃ b : String, get_basename s = some b ∧
        (components s).getLast? = some (Component.normal b)) := by
  refine ⟨by decide, by decide, ?_⟩
  intro s
  rcases h : get_basename s with _ | b
  · exact Or.inl rfl
  · exact Or.inr ⟨b, rfl, basename_last_component h⟩

/-- C6: `get_parent_directory` yields the documented examples, returns
`none` when the path is only a root, and returns `none` for a
single-segment relative path. -/
theorem c6_get_parent_directory_spec :
    get_parent_directory "./src/path/mod.rs" = some "./src/path" ∧
    get_parent_directory "/" = none ∧
    (∀ s : String, (components s).getLast? = some Component.rootDir →
      get_parent_directory s = none) ∧
    (∀ s n : String, components s = [Component.normal n] →
      get_parent_directory s = none) := by
  refine ⟨by decide, by decide, ?_, ?_⟩
  · intro s h
    unfold get_parent_directory parentString as_path
    rw [h]
  · intro s n h
    have h0 := h
    cases habs : isAbs s with
    | true =>
      exfalso
      unfold components at h
      rw [habs] at h
      simp at h
    | false =>
      unfold components at h
      rw [habs] at h
      simp only [Bool.false_eq_true, if_false, List.nil_append] at h
      obtain ⟨i, hi⟩ := List.length_eq_one.mp (by simpa using congrArg List.length h)
      have hlast : (components s).getLast? = some (Component.normal n) := by
        rw [h0]
        simp
      unfold get_parent_directory parentString as_path
      rw [hlast, hi]
      simp [habs]

/-- C6 witness: the root-only and single-segment conjuncts applied at
`"/"` and `"a"`. -/
theorem c6_witness :
    get_parent_directory "/" = none ∧ get_parent_directory "a" = none :=
  ⟨c6_get_parent_directory_spec.2.2.1 "/" (by decide),
   c6_get_parent_directory_spec.2.2.2 "a" "a" (by decide)⟩

/-- C7: converting a display string to a native path view (AsPath) and
back through FromPath yields the string unchanged. -/
theorem c7_as_path_round_trip : ∀ s : String, from_path (as_path s) = s :=
  fun _ => rfl

/-- C8: the temporary file path ends in a dot followed by the extension,
and distinct generated base names give distinct paths. -/
theorem c8_get_temporary_file_path_spec (temp_dir n₁ n₂ ext : String)
    (h : n₁ ≠ n₂) :
    (∃ stem : String,
      get_temporary_file_path temp_dir n₁ ext = stem ++ ("." ++ ext)) ∧
    get_temporary_file_path temp_dir n₁ ext ≠
      get_temporary_file_path temp_dir n₂ ext := by
  constructor
  · exact ⟨temp_dir ++ "/" ++ n₁, by simp [get_temporary_file_path, String.append_assoc]⟩
  · intro heq
    apply h
    unfold get_temporary_file_path at heq
    have hd := congrArg String.data heq
    simp only [String.data_append, List.append_assoc] at hd
    have h1 := List.append_cancel_left (List.append_cancel_left hd)
    exact String.ext (List.append_cancel_right h1)

/-- C8 witness: concrete directory, names and extension. -/
theorem c8_witness :
    (∃ stem : String,
      get_temporary_file_path "/tmp" "a1" "txt" = stem ++ ("." ++ "txt")) ∧
    get_temporary_file_path "/tmp" "a1" "txt" ≠
      get_temporary_file_path "/tmp" "b2" "txt" :=
  c8_get_temporary_file_path_spec "/tmp" "a1" "b2" "txt" (by decide)

/-- C9: when the final component is the current-directory or
parent-directory component, `get_basename` returns `none` (e.g. for
`src/..`), and any returned basename is a non-empty string. -/
theorem c9_basename_dot_components :
    (∀ s : String,
      (components s).getLast? = some Component.curDir ∨
      (components s).getLast? = some Component.parentDir →
      get_basename s = none) ∧
    get_basename "src/.." = none ∧
    (∀ s b : String, get_basename s = some b → b ≠ "") := by
  refine ⟨?_, by decide, ?_⟩
  · intro s h
    unfold get_basename fileName as_path
    rcases h with h | h <;> rw [h]
  · intro s b h
    exact normal_mem_components_ne_empty (mem_of_getLast?_eq (basename_last_component h))

/-- C9 witness: the dot-component conjunct at `"."` and the non-emptiness
conjunct at `"a"`. -/
theorem c9_witness : get_basename "." = none ∧ ("a" : String) ≠ "" :=
  ⟨c9_basename_dot_components.1 "." (Or.inl (by decide)),
   c9_basename_dot_components.2.2 "a" "a" (by decide)⟩

/-- C10: every error value `canonicalize_as_string` produces is the
I/O-failure variant with the fixed message and a present OS error; the
logical variant is never produced. -/
theorem c10_error_shape (ε : Type) (fs : String → Except ε String)
    (path : String) (err : FsIOError ε)
    (h : canonicalize_as_string fs path = Except.error err) :
    ∃ e : ε, err.info = ErrorInfo.IOError "Unable to canonicalize path." (some e) := by
  unfold canonicalize_as_string as_path at h
  cases hf : fs path with
  | ok v =>
    rw [hf] at h
    simp at h
  | error e0 =>
    rw [hf] at h
    simp only [Except.error.injEq] at h
    subst h
    exact ⟨e0, rfl⟩

/-- C10 witness: a concrete failing oracle produces exactly that shape. -/
theorem c10_witness :
    ∃ e : Unit,
      (FsIOError.mk (ErrorInfo.IOError "Unable to canonicalize path." (some ()))).info =
        ErrorInfo.IOError "Unable to canonicalize path." (some e) :=
  c10_error_shape Unit (fun _ => Except.error ()) "p"
    ⟨ErrorInfo.IOError "Unable to canonicalize path." (some ())⟩ rfl

end Fsio
